import Mathlib

/-!
Verification of the asta `Array` shape/dtype pattern core.

The repository checks numpy arrays against declarative shape/dtype patterns
written as subscripts (`Array[int, 1, 2, 3]`, `Array[...]`, `Array[-1, 3]`,
`Array[()]`, ...).  We embed:

* the raw-subscript data (`Raw`, `Item`, `BTok`) exactly as Python's
  `__getitem__` receives them (a single object, or a tuple whose members may
  themselves be flat tuples);
* `get_dtype` from `src/asta/_array.py` (`_Array.get_dtype`);
* `_ArrayMeta.__eq__` (`arrayEq`) and `_ArrayMeta.__instancecheck__`
  (`instancecheck`) from `src/asta/_array.py`;
* the pattern parser (`parse_subscript`) and the shape matcher
  (`shapecheck` / `shapematch`), whose Python sources (`asta/parser.py`,
  `asta/utils.py`) are not part of the sources at hand and are therefore
  modelled from the specification, with the deviations forced by the
  repository's own test suite documented at the definitions.
-/

namespace Asta

/-- Numpy dtype descriptor: a kind character (`"i"`, `"f"`, `"S"`, ...), the
item size, and the field names of a structured (record) dtype (empty for
plain scalar dtypes).  Equality is structural, and `dtype.kind` /
`dtype.names` are the corresponding field accesses, mirroring how
`src/asta/_array.py` uses `np.dtype` values. -/
structure Dtype where
  kind : String
  size : Nat
  names : List String
deriving DecidableEq, Repr

/-- Python-level types that can appear as an element-type subscript argument
(`Array[int]`, `Array[str]`, ...). -/
inductive PyType where
  | pbool
  | pint
  | pfloat
  | pcomplex
  | pbytes
  | pstr
  | pobject
  | pdatetime
  | ptimedelta
deriving DecidableEq, Repr

/-- The numpy dtype `np.dtype(t)` obtained from a Python type on a 64-bit
platform; for `datetime.datetime` / `datetime.timedelta` the source first
substitutes `np.datetime64` / `np.timedelta64` (see `_Array.get_dtype` in
`src/asta/_array.py`). -/
def npDtype : PyType → Dtype
  | PyType.pbool => ⟨"b", 1, []⟩
  | PyType.pint => ⟨"i", 8, []⟩
  | PyType.pfloat => ⟨"f", 8, []⟩
  | PyType.pcomplex => ⟨"c", 16, []⟩
  | PyType.pbytes => ⟨"S", 0, []⟩
  | PyType.pstr => ⟨"U", 0, []⟩
  | PyType.pobject => ⟨"O", 8, []⟩
  | PyType.pdatetime => ⟨"M", 8, []⟩
  | PyType.ptimedelta => ⟨"m", 8, []⟩

/-- `NP_UNSIZED_TYPE_KINDS` from `src/asta/constants.py`:
`{bytes: "S", str: "U", object: "O"}`. -/
def NP_UNSIZED_TYPE_KINDS : PyType → Option String
  | PyType.pbytes => some "S"
  | PyType.pstr => some "U"
  | PyType.pobject => some "O"
  | _ => none

/-- A base (non-tuple) raw subscript token. -/
inductive BTok where
  | tint (n : Int)
  | ellipsis
  | noneTok
  | scalarTok
  | symbolTok (s : String)
  | typeTok (t : PyType)
  | dtypeTok (d : Dtype)
deriving DecidableEq, Repr

/-- One member of a subscript tuple: a base token or a nested (flat) tuple of
base tokens.  The parser flattens exactly one level of nesting, so this is
the shape of the raw data that actually occurs. -/
inductive Item where
  | base (t : BTok)
  | tup (ts : List BTok)
deriving DecidableEq, Repr

/-- A raw subscript argument, exactly as Python hands it to `__getitem__`:
`Array[x]` passes the single object `x` (`Raw.single`), while `Array[a, b]`
and `Array[(a, b)]` both pass the tuple `(a, b)` (`Raw.args`).  In
particular `Array[()]` passes the empty tuple, `Raw.args []`. -/
inductive Raw where
  | single (t : BTok)
  | args (ts : List Item)
deriving DecidableEq, Repr

/-- A parsed dimension of a shape pattern (spec §3 "Dimension"). -/
inductive Dim where
  | fixed (n : Nat)
  | wildcard
  | symbolic (name : String)
  | gap
  | none_
deriving DecidableEq, Repr

/-- `_Array.get_dtype` from `src/asta/_array.py`: an `np.dtype` argument is
taken as-is with empty kind; a Python type`t` yields `np.dtype(t)` plus, for
the unsized types `bytes`/`str`/`object`, the recorded kind code; every other
token resolves to no dtype at all. -/
def get_dtype : Item → Option Dtype × String
  | Item.base (BTok.dtypeTok d) => (some d, "")
  | Item.base (BTok.typeTok t) =>
    match NP_UNSIZED_TYPE_KINDS t with
    | some k => (some (npDtype t), k)
    | none => (some (npDtype t), "")
  | _ => (none, "")

/-- A token is an element-type token iff it resolves via `get_dtype`
(spec §4.1 step 2). -/
def resolves (t : Item) : Bool := (get_dtype t).1.isSome

/-- Input normalization (spec §4.1 step 1): a non-tuple argument is wrapped
in a one-element sequence; the empty tuple `()` is kept as a single
scalar-marker token (`Array[()]` denotes the scalar pattern, it is not an
empty argument list). -/
def normalize : Raw → List Item
  | Raw.single t => [Item.base t]
  | Raw.args [] => [Item.tup []]
  | Raw.args ts => ts

/-- One-level flattening of nested tuples (spec §4.1 step 3): a nonempty
nested tuple is spliced into its members; the empty tuple is kept as a
scalar marker. -/
def flattenDims : List Item → List Item
  | [] => []
  | Item.tup (t :: ts) :: rest => (t :: ts).map Item.base ++ flattenDims rest
  | x :: rest => x :: flattenDims rest

/-- A scalar marker among dimension tokens: the literal empty tuple `()` or
the `Scalar` marker object (spec §4.1 step 3). -/
def isScalarMarker : Item → Bool
  | Item.tup [] => true
  | Item.base BTok.scalarTok => true
  | _ => false

/-- Classification of a single dimension token (spec §4.1 step 3): `n ≥ 0`
is a fixed dimension, `-1` a wildcard, other negatives are syntax errors;
`Ellipsis` is the gap; `None` the always-fail sentinel; a sympy symbol a
symbolic dimension; anything else is unrecognized. -/
def classifyDim : Item → Except String Dim
  | Item.base (BTok.tint n) =>
    if n = -1 then Except.ok Dim.wildcard
    else if 0 ≤ n then Except.ok (Dim.fixed n.toNat)
    else Except.error "invalid negative dimension"
  | Item.base BTok.ellipsis => Except.ok Dim.gap
  | Item.base BTok.noneTok => Except.ok Dim.none_
  | Item.base (BTok.symbolTok s) => Except.ok (Dim.symbolic s)
  | _ => Except.error "unrecognized dimension token"

/-- Classify a whole dimension-token sequence, failing on the first bad
token. -/
def classifyAll : List Item → Except String (List Dim)
  | [] => Except.ok []
  | t :: ts =>
    match classifyDim t with
    | Except.error e => Except.error e
    | Except.ok d =>
      match classifyAll ts with
      | Except.error e => Except.error e
      | Except.ok ds => Except.ok (d :: ds)

/-- Is this raw token the ellipsis? -/
def isGapTok : Item → Bool
  | Item.base BTok.ellipsis => true
  | _ => false

/-- Is this parsed dimension the gap? -/
def isGapDim : Dim → Bool
  | Dim.gap => true
  | _ => false

/-- Two consecutive ellipsis tokens somewhere in a token sequence. -/
def hasAdjGapTok : List Item → Bool
  | [] => false
  | [_] => false
  | a :: b :: rest => (isGapTok a && isGapTok b) || hasAdjGapTok (b :: rest)

/-- Two consecutive gaps somewhere in a parsed pattern. -/
def hasAdjacentGap : List Dim → Bool
  | [] => false
  | [_] => false
  | a :: b :: rest => (isGapDim a && isGapDim b) || hasAdjacentGap (b :: rest)

/-- Modelled from the spec: the dimension-token part of `parse_subscript`
(`asta/parser.py`, not among the sources at hand), spec §4.1 steps 3-5,
applied to the already-flattened dimension tokens.  A scalar marker is
accepted only as the sole dimension token and produces the scalar pattern
(empty dimension list); two or more scalar markers, or a scalar marker mixed
with other dimension tokens, are syntax errors; no dimension tokens at all
leaves the shape unconstrained.  Deviation from the spec's step 4, forced by
the repository's own tests: `test_array_ellipsis_passes_for_empty_subshapes`
accepts patterns with several non-adjacent ellipses
(`Array[..., 1, ..., 2, ..., 3, ...]`) while
`test_array_handles_invalid_ellipsis_shapes` rejects exactly the patterns
with two consecutive ellipses, so the gap check rejects consecutive
ellipses rather than every repeated ellipsis. -/
def parseDims (dt : Option Dtype) (kd : String) (dims : List Item) :
    Except String (Option Dtype × Option (List Dim) × String) :=
  if 2 ≤ (dims.filter isScalarMarker).length then
    Except.error "multiple scalar markers"
  else if (dims.filter isScalarMarker).length = 1 then
    if dims.length = 1 then Except.ok (dt, some [], kd)
    else Except.error "scalar marker combined with other dimension tokens"
  else if dims.isEmpty then Except.ok (dt, none, kd)
  else
    match classifyAll dims with
    | Except.error e => Except.error e
    | Except.ok pat =>
      if hasAdjacentGap pat then Except.error "consecutive ellipses"
      else Except.ok (dt, some pat, kd)

/-- Modelled from the spec: `parse_subscript` (`asta/parser.py`, not among
the sources at hand), spec §4.1.  The raw argument is normalized, at most one
leading element-type token is split off via the `get_dtype` resolver (two
resolving tokens, or a resolving token that is not leading, fail), and the
remaining dimension tokens are flattened one level and parsed by
`parseDims`.  The result mirrors the Python call site
`dtype, shape, kind = parse_subscript(cls, item, np.dtype)`. -/
def parse_subscript (raw : Raw) :
    Except String (Option Dtype × Option (List Dim) × String) :=
  if 2 ≤ ((normalize raw).filter resolves).length then
    Except.error "multiple element-type tokens"
  else
    match normalize raw with
    | [] => Except.ok (none, none, "")
    | t :: rest =>
      if resolves t then
        parseDims (get_dtype t).1 (get_dtype t).2 (flattenDims rest)
      else if rest.any resolves then
        Except.error "element-type token not leading"
      else
        parseDims none "" (flattenDims (t :: rest))

/-- Position-wise dimension matching (spec §4.2): a fixed dimension matches
exactly its extent, a wildcard matches any extent `≥ 1`, a symbolic
dimension matches anything, the `None` sentinel matches nothing; the gap is
handled at the sequence level, never position-wise. -/
def dimcheck : Dim → Nat → Bool
  | Dim.fixed m, n => n == m
  | Dim.wildcard, n => decide (1 ≤ n)
  | Dim.symbolic _, _ => true
  | Dim.none_, _ => false
  | Dim.gap, _ => false

/-- Gap expansion: `gapScan f ns` holds iff some split `ns = pre ++ suf` has
every extent in `pre` nonzero and `f suf`; the gap absorbs `pre`.  A gap
never absorbs a zero extent (spec §4.2). -/
def gapScan (f : List Nat → Bool) : List Nat → Bool
  | [] => f []
  | n :: ns => f (n :: ns) || (decide (n ≠ 0) && gapScan f ns)

/-- Modelled from the spec: the shape matcher of `shapecheck`
(`asta/utils.py`, not among the sources at hand), spec §4.2.  A gap-free
pattern requires equal rank and position-wise matches; a gap matches a
contiguous run of zero or more dimensions none of which has extent zero.
For the single-gap patterns described by the spec this agrees with the
spec's left/middle/right split; it additionally gives each of the several
non-adjacent gaps admitted by the repository's tests the same semantics. -/
def shapematch : List Dim → List Nat → Bool
  | [], ns => ns.isEmpty
  | Dim.gap :: ds, ns => gapScan (shapematch ds) ns
  | d :: ds, ns =>
    match ns with
    | [] => false
    | n :: ns2 => dimcheck d n && shapematch ds ns2

/-- `shapecheck(inst.shape, cls.shape)` as called by
`_ArrayMeta.__instancecheck__` (argument order: concrete shape first). -/
def shapecheck (ishape : List Nat) (pat : List Dim) : Bool :=
  shapematch pat ishape

/-- The class attributes of a subscripted `Array` type
(`_Array.kind/dtype/shape` in `src/asta/_array.py`): an optional kind code
(`""` when absent), an optional dtype, and an optional parsed shape pattern
(`none` when the shape is unconstrained, `some []` for the scalar
pattern). -/
structure ArrayMeta where
  kind : String
  dtype : Option Dtype
  shape : Option (List Dim)
deriving DecidableEq, Repr

/-- Build the class attributes for `Array[raw]`:
`_Array._after_subscription` stores the three components returned by
`parse_subscript` (`src/asta/_array.py`, lines 133-141). -/
def arrayOf (raw : Raw) : Except String ArrayMeta :=
  match parse_subscript raw with
  | Except.error e => Except.error e
  | Except.ok (d, s, k) => Except.ok ⟨k, d, s⟩

/-- `_ArrayMeta.__eq__` from `src/asta/_array.py` (lines 45-51): two
subscripted `Array` classes are equal iff their `shape` and `dtype`
attributes are equal. -/
def arrayEq (a b : ArrayMeta) : Bool :=
  decide (a.shape = b.shape) && decide (a.dtype = b.dtype)

/-- A concrete Python value presented to `isinstance`: a numpy array with
its shape and dtype, or any non-`ndarray` object. -/
inductive Value where
  | ndarray (shape : List Nat) (dtype : Dtype)
  | other
deriving DecidableEq, Repr

/-- `_ArrayMeta.__instancecheck__` from `src/asta/_array.py` (lines 70-92):
non-arrays never match; for an array, `match` starts `True` and is cleared
for a structured (record) dtype; then the `if`/`elif` chain clears it on a
kind mismatch, else on an exact-dtype mismatch (only when no kind is set),
else overwrites it with the shape check whenever a shape constraint is
present. -/
def instancecheck (cls : ArrayMeta) (inst : Value) : Bool :=
  match inst with
  | Value.other => false
  | Value.ndarray ishape idtype =>
    if cls.kind ≠ "" ∧ cls.kind ≠ idtype.kind then false
    else if cls.dtype ≠ none ∧ cls.dtype ≠ some idtype ∧ cls.kind = "" then false
    else
      match cls.shape with
      | some pat => shapecheck ishape pat
      | none => decide (idtype.names = [])

/-! ### Helper lemmas about the shape matcher -/

theorem gapScan_false (f : List Nat → Bool) (hf : ∀ x, f x = false) :
    ∀ ns, gapScan f ns = false := by
  intro ns
  induction ns with
  | nil => simp [gapScan, hf]
  | cons n ns ih => simp [gapScan, hf, ih]

theorem shapematch_none_mem {pat : List Dim} (h : Dim.none_ ∈ pat) :
    ∀ s, shapematch pat s = false := by
  induction pat with
  | nil => cases h
  | cons d ds ih =>
    intro s
    cases d with
    | gap =>
      have h2 : Dim.none_ ∈ ds := by
        rcases List.mem_cons.mp h with h1 | h1
        · cases h1
        · exact h1
      simpa [shapematch] using gapScan_false (shapematch ds) (ih h2) s
    | none_ => cases s <;> simp [shapematch, dimcheck]
    | fixed m =>
      have h2 : Dim.none_ ∈ ds := by
        rcases List.mem_cons.mp h with h1 | h1
        · cases h1
        · exact h1
      cases s <;> simp [shapematch, dimcheck, ih h2]
    | wildcard =>
      have h2 : Dim.none_ ∈ ds := by
        rcases List.mem_cons.mp h with h1 | h1
        · cases h1
        · exact h1
      cases s <;> simp [shapematch, dimcheck, ih h2]
    | symbolic a =>
      have h2 : Dim.none_ ∈ ds := by
        rcases List.mem_cons.mp h with h1 | h1
        · cases h1
        · exact h1
      cases s <;> simp [shapematch, dimcheck, ih h2]

theorem shapematch_gapfree_length {pat : List Dim} :
    ∀ s : List Nat, Dim.gap ∉ pat → s.length ≠ pat.length → shapematch pat s = false := by
  induction pat with
  | nil =>
    intro s _ hl
    cases s with
    | nil => simp at hl
    | cons n ns => simp [shapematch]
  | cons d ds ih =>
    intro s hg hl
    have hd : d ≠ Dim.gap := fun h => hg (h ▸ List.mem_cons_self d ds)
    have hg2 : Dim.gap ∉ ds := fun h => hg (List.mem_cons_of_mem d h)
    cases s with
    | nil => cases d <;> simp [shapematch] <;> exact absurd rfl hd
    | cons n ns =>
      have hl2 : ns.length ≠ ds.length := by
        simp only [List.length_cons] at hl
        omega
      cases d <;> simp [shapematch, ih ns hg2 hl2] <;> exact absurd rfl hd

theorem shapematch_wildcard_zero {pat : List Dim} :
    ∀ (s : List Nat) (i : Nat), Dim.gap ∉ pat → pat[i]? = some Dim.wildcard →
      s[i]? = some 0 → shapematch pat s = false := by
  induction pat with
  | nil => intro s i _ hp _; simp at hp
  | cons d ds ih =>
    intro s i hg hp hs
    have hd : d ≠ Dim.gap := fun h => hg (h ▸ List.mem_cons_self d ds)
    have hg2 : Dim.gap ∉ ds := fun h => hg (List.mem_cons_of_mem d h)
    cases s with
    | nil => simp at hs
    | cons n ns =>
      cases i with
      | zero =>
        simp only [List.getElem?_cons_zero, Option.some.injEq] at hp hs
        subst hp
        subst hs
        simp [shapematch, dimcheck]
      | succ j =>
        simp only [List.getElem?_cons_succ] at hp hs
        cases d <;> simp [shapematch, ih ns j hg2 hp hs] <;> exact absurd rfl hd

theorem gapScan_congr {f g : List Nat → Bool} (h : ∀ x, f x = g x) :
    ∀ ns, gapScan f ns = gapScan g ns := by
  intro ns
  induction ns with
  | nil => simp [gapScan, h]
  | cons n ns ih => simp [gapScan, h, ih]

theorem gapScan_isEmpty :
    ∀ s : List Nat, gapScan (fun x => x.isEmpty) s = s.all fun n => decide (n ≠ 0) := by
  intro s
  induction s with
  | nil => simp [gapScan]
  | cons n ns ih => simp [gapScan, ih]

theorem shapematch_puregap :
    ∀ s : List Nat, shapematch [Dim.gap] s = s.all fun n => decide (n ≠ 0) := by
  intro s
  have h1 : ∀ x : List Nat, shapematch [] x = x.isEmpty := by
    intro x
    cases x <;> rfl
  calc shapematch [Dim.gap] s = gapScan (shapematch []) s := by simp [shapematch]
    _ = gapScan (fun x => x.isEmpty) s := gapScan_congr h1 s
    _ = s.all fun n => decide (n ≠ 0) := gapScan_isEmpty s

theorem instancecheck_shape_false (cls : ArrayMeta) (pat : List Dim) (s : List Nat)
    (d : Dtype) (hs : cls.shape = some pat) (hm : shapematch pat s = false) :
    instancecheck cls (Value.ndarray s d) = false := by
  simp only [instancecheck, hs]
  split
  · rfl
  · split
    · rfl
    · simpa [shapecheck] using hm

/-! ### Helper lemmas about the parser -/

/-- Number of scalar markers among the flattened dimension tokens of a raw
argument (element-type tokens are never scalar markers, so counting over all
normalized tokens is the same as counting over the dimension tokens). -/
def scalarMarkerCount (raw : Raw) : Nat :=
  ((flattenDims (normalize raw)).filter isScalarMarker).length

theorem hasAdjGapTok_two_le_length {l : List Item} (h : hasAdjGapTok l = true) :
    2 ≤ l.length := by
  match l with
  | [] => simp [hasAdjGapTok] at h
  | [x] => simp [hasAdjGapTok] at h
  | a :: b :: r => simp

theorem hasAdjGapTok_cons_of_not_gap {t : Item} {l : List Item}
    (ht : isGapTok t = false) : hasAdjGapTok (t :: l) = hasAdjGapTok l := by
  cases l with
  | nil => simp [hasAdjGapTok]
  | cons b l2 => simp [hasAdjGapTok, ht]

theorem hasAdjacentGap_cons (d : Dim) (ds : List Dim) (h : hasAdjacentGap ds = true) :
    hasAdjacentGap (d :: ds) = true := by
  cases ds with
  | nil => simp [hasAdjacentGap] at h
  | cons e es => simp [hasAdjacentGap, h]

theorem classifyDim_gapTok (t : Item) (d : Dim) (hc : classifyDim t = Except.ok d)
    (hg : isGapTok t = true) : d = Dim.gap := by
  cases t with
  | tup ts => simp [isGapTok] at hg
  | base b =>
    cases b <;> simp [isGapTok] at hg
    simp [classifyDim] at hc
    exact hc.symm

theorem classifyAll_cons_ok (t : Item) (ts : List Item) (pat : List Dim)
    (hc : classifyAll (t :: ts) = Except.ok pat) :
    ∃ d ds, classifyDim t = Except.ok d ∧ classifyAll ts = Except.ok ds ∧ pat = d :: ds := by
  simp only [classifyAll] at hc
  cases hct : classifyDim t with
  | error e => rw [hct] at hc; simp at hc
  | ok d =>
    rw [hct] at hc
    cases hcr : classifyAll ts with
    | error e => rw [hcr] at hc; simp at hc
    | ok ds =>
      rw [hcr] at hc
      simp only [Except.ok.injEq] at hc
      exact ⟨d, ds, rfl, rfl, hc.symm⟩

theorem classifyAll_adj : ∀ (dims : List Item) (pat : List Dim),
    classifyAll dims = Except.ok pat → hasAdjGapTok dims = true →
    hasAdjacentGap pat = true := by
  intro dims
  induction dims with
  | nil => intro pat _ h; simp [hasAdjGapTok] at h
  | cons a rest ih =>
    intro pat hc h
    obtain ⟨d, ds, hda, hdr, rfl⟩ := classifyAll_cons_ok a rest pat hc
    cases rest with
    | nil => simp [hasAdjGapTok] at h
    | cons b rest2 =>
      obtain ⟨d2, ds2, hdb, hdr2, rfl⟩ := classifyAll_cons_ok b rest2 ds hdr
      simp only [hasAdjGapTok, Bool.or_eq_true, Bool.and_eq_true] at h
      rcases h with ⟨ha, hb⟩ | h1
      · have e1 : d = Dim.gap := classifyDim_gapTok a d hda ha
        have e2 : d2 = Dim.gap := classifyDim_gapTok b d2 hdb hb
        subst e1
        subst e2
        simp [hasAdjacentGap, isGapDim]
      · exact hasAdjacentGap_cons d _ (ih (d2 :: ds2) hdr h1)

theorem resolves_flat (t : Item) (h : resolves t = true) :
    isGapTok t = false ∧ isScalarMarker t = false ∧ ∃ b, t = Item.base b := by
  cases t with
  | tup ts => simp [resolves, get_dtype] at h
  | base b =>
    refine ⟨?_, ?_, b, rfl⟩
    · cases b <;> simp_all [resolves, get_dtype, isGapTok]
    · cases b <;> simp_all [resolves, get_dtype, isScalarMarker]

theorem flattenDims_cons_base (b : BTok) (rest : List Item) :
    flattenDims (Item.base b :: rest) = Item.base b :: flattenDims rest := rfl

theorem parseDims_scalar_isOk (dt : Option Dtype) (kd : String) (dims : List Item)
    (h : 2 ≤ (dims.filter isScalarMarker).length) :
    (parseDims dt kd dims).isOk = false := by
  unfold parseDims
  rw [if_pos h]
  rfl

theorem parseDims_adj (dt : Option Dtype) (kd : String) (dims : List Item)
    (h : hasAdjGapTok dims = true) : (parseDims dt kd dims).isOk = false := by
  unfold parseDims
  split
  · rfl
  · split
    · split
      · have h2 := hasAdjGapTok_two_le_length h
        omega
      · rfl
    · split
      · rename_i hemp
        rw [List.isEmpty_iff] at hemp
        subst hemp
        simp [hasAdjGapTok] at h
      · split
        · rfl
        · rename_i pat hca
          rw [if_pos (classifyAll_adj dims pat hca h)]
          rfl

theorem parseDims_ok_no_adj (dt : Option Dtype) (kd : String) (dims : List Item)
    (a : Option Dtype) (pat : List Dim) (k : String)
    (h : parseDims dt kd dims = Except.ok (a, some pat, k)) :
    hasAdjacentGap pat = false := by
  unfold parseDims at h
  split at h
  · simp at h
  · split at h
    · split at h
      · simp only [Except.ok.injEq, Prod.mk.injEq, Option.some.injEq] at h
        rw [← h.2.1]
        rfl
      · simp at h
    · split at h
      · simp at h
      · split at h
        · simp at h
        · split at h
          · simp at h
          · rename_i hadj
            simp only [Except.ok.injEq, Prod.mk.injEq, Option.some.injEq] at h
            rw [← h.2.1]
            exact Bool.not_eq_true _ |>.mp hadj

/-! ### Claim theorems -/

/-- C1, counterexample: the claim says every raw argument with two or more
ellipsis tokens fails to parse regardless of position, but
`Array[..., 1, ...]` parses successfully into the pattern
`(gap, fixed 1, gap)` — exactly the behavior the repository's test
`test_array_ellipsis_passes_for_empty_subshapes` relies on
(`Array[..., 1, ..., 2, ..., 3, ...]` is accepted there). -/
theorem C1_multiple_gaps_counterexample :
    parse_subscript (Raw.args [Item.base BTok.ellipsis, Item.base (BTok.tint 1),
        Item.base BTok.ellipsis])
      = Except.ok (none, some [Dim.gap, Dim.fixed 1, Dim.gap], "") := rfl

/-- C1, amended: parsing fails (with a `PatternSyntaxError`, i.e. no pattern
is produced) for every raw argument whose flattened dimension tokens contain
two consecutive ellipsis tokens, and no successfully parsed pattern contains
two consecutive gaps; non-adjacent repeated ellipses are accepted. -/
theorem C1_consecutive_gaps_rejected :
    (∀ raw : Raw, hasAdjGapTok (flattenDims (normalize raw)) = true →
       (parse_subscript raw).isOk = false)
  ∧ (∀ (raw : Raw) (a : Option Dtype) (dims : List Dim) (k : String),
       parse_subscript raw = Except.ok (a, some dims, k) →
       hasAdjacentGap dims = false) := by
  constructor
  · intro raw h
    unfold parse_subscript
    split
    · rfl
    · split
      · rename_i heq
        rw [heq] at h
        simp [flattenDims, hasAdjGapTok] at h
      · rename_i t rest heq
        rw [heq] at h
        split
        · rename_i hres
          obtain ⟨hgap, hsc, b, hb⟩ := resolves_flat t hres
          subst hb
          rw [flattenDims_cons_base, hasAdjGapTok_cons_of_not_gap hgap] at h
          exact parseDims_adj _ _ _ h
        · split
          · rfl
          · exact parseDims_adj _ _ _ h
  · intro raw a dims k hok
    unfold parse_subscript at hok
    split at hok
    · simp at hok
    · split at hok
      · simp at hok
      · split at hok
        · exact parseDims_ok_no_adj _ _ _ _ _ _ hok
        · split at hok
          · simp at hok
          · exact parseDims_ok_no_adj _ _ _ _ _ _ hok

/-- C1, witness: `Array[..., ...]` is rejected. -/
theorem C1_consecutive_gaps_rejected_witness :
    (parse_subscript (Raw.args [Item.base BTok.ellipsis, Item.base BTok.ellipsis])).isOk
      = false :=
  C1_consecutive_gaps_rejected.1
    (Raw.args [Item.base BTok.ellipsis, Item.base BTok.ellipsis]) (by decide)

/-- C2: the pure-gap pattern `Array[...]` matches the rank-0 shape `()`,
fails for every concrete shape containing a zero extent (for any element
dtype), and in general a gap never absorbs a zero-size dimension: when the
leading concrete extent is `0` the gap is forced to stop there. -/
theorem C2_pure_gap_scalar_vs_zero :
    (∀ d : Dtype, instancecheck ⟨"", none, some [Dim.gap]⟩ (Value.ndarray [] d) = true)
  ∧ (∀ (s : List Nat) (d : Dtype), 0 ∈ s →
       instancecheck ⟨"", none, some [Dim.gap]⟩ (Value.ndarray s d) = false)
  ∧ (∀ (ds : List Dim) (ns : List Nat),
       shapematch (Dim.gap :: ds) (0 :: ns) = shapematch ds (0 :: ns)) := by
  refine ⟨?_, ?_, ?_⟩
  · intro d
    simp [instancecheck, shapecheck, shapematch, gapScan]
  · intro s d h
    apply instancecheck_shape_false _ [Dim.gap] s d rfl
    rw [shapematch_puregap]
    simp only [List.all_eq_false]
    exact ⟨0, h, by simp⟩
  · intro ds ns
    simp [shapematch, gapScan]

/-- C2, witness: the shape `(0,)` does not match `Array[...]`. -/
theorem C2_pure_gap_scalar_vs_zero_witness :
    instancecheck ⟨"", none, some [Dim.gap]⟩ (Value.ndarray [0] ⟨"f", 8, []⟩) = false :=
  C2_pure_gap_scalar_vs_zero.2.1 [0] ⟨"f", 8, []⟩ (by simp)

/-- C3, counterexample: the claim quantifies over all patterns, but in a
pattern with a gap the pattern position and the concrete position need not
line up: the pattern `(..., -1, 0)` has its wildcard at position 1 and the
concrete shape `(3, 0)` has extent 0 at position 1, yet the match succeeds
(the gap is empty, the wildcard consumes 3, the fixed 0 consumes 0). -/
theorem C3_wildcard_zero_counterexample :
    instancecheck ⟨"", none, some [Dim.gap, Dim.wildcard, Dim.fixed 0]⟩
        (Value.ndarray [3, 0] ⟨"f", 8, []⟩) = true
  ∧ [Dim.gap, Dim.wildcard, Dim.fixed 0][1]? = some Dim.wildcard
  ∧ ([3, 0] : List Nat)[1]? = some 0 := by decide

/-- C3, amended: for every gap-free pattern with a wildcard at position `i`,
matching fails against any concrete shape whose extent at position `i` is 0
(whatever the element-type constraints), and a wildcard dimension matches
exactly the integers `≥ 1`. -/
theorem C3_wildcard_zero_gapfree :
    (∀ (cls : ArrayMeta) (pat : List Dim) (s : List Nat) (i : Nat) (d : Dtype),
       cls.shape = some pat → Dim.gap ∉ pat → pat[i]? = some Dim.wildcard →
       s[i]? = some 0 → instancecheck cls (Value.ndarray s d) = false)
  ∧ (∀ n : Nat, dimcheck Dim.wildcard n = true ↔ 1 ≤ n) := by
  constructor
  · intro cls pat s i d hs hg hp h0
    exact instancecheck_shape_false cls pat s d hs (shapematch_wildcard_zero s i hg hp h0)
  · intro n
    simp [dimcheck]

/-- C3, witness: `Array[-1]` rejects the shape `(0,)`. -/
theorem C3_wildcard_zero_gapfree_witness :
    instancecheck ⟨"", none, some [Dim.wildcard]⟩ (Value.ndarray [0] ⟨"f", 8, []⟩) = false :=
  C3_wildcard_zero_gapfree.1 ⟨"", none, some [Dim.wildcard]⟩ [Dim.wildcard] [0] 0
    ⟨"f", 8, []⟩ rfl (by decide) (by decide) (by decide)

/-- C4: a pattern containing the `None` sentinel matches no concrete value
at all — not a non-array, not any array of any shape or dtype, rank 0
included, and not through gap expansion either. -/
theorem C4_none_sentinel_never_matches :
    ∀ (cls : ArrayMeta) (pat : List Dim) (inst : Value),
      cls.shape = some pat → Dim.none_ ∈ pat → instancecheck cls inst = false := by
  intro cls pat inst hs hm
  cases inst with
  | other => rfl
  | ndarray s d => exact instancecheck_shape_false cls pat s d hs (shapematch_none_mem hm s)

/-- C4, witness: `Array[None]` rejects a shape-(1,) int64 array. -/
theorem C4_none_sentinel_never_matches_witness :
    instancecheck ⟨"", none, some [Dim.none_]⟩ (Value.ndarray [1] ⟨"i", 8, []⟩) = false :=
  C4_none_sentinel_never_matches ⟨"", none, some [Dim.none_]⟩ [Dim.none_]
    (Value.ndarray [1] ⟨"i", 8, []⟩) rfl (by decide)

/-- C5, counterexample: `__eq__` compares only `shape` and `dtype`, never
`kind`, so the kind-constrained pattern `Array[bytes]` (kind `"S"`, dtype
`S0`) and the exact pattern `Array[np.dtype(bytes)]` (no kind, dtype `S0`)
compare equal even though their element-type specs differ — and they are
behaviorally distinct: an `S5` array is an instance of the first but not of
the second. -/
theorem C5_kind_ignored_counterexample :
    arrayOf (Raw.single (BTok.typeTok PyType.pbytes))
        = Except.ok ⟨"S", some ⟨"S", 0, []⟩, none⟩
  ∧ arrayOf (Raw.single (BTok.dtypeTok ⟨"S", 0, []⟩))
        = Except.ok ⟨"", some ⟨"S", 0, []⟩, none⟩
  ∧ arrayEq ⟨"S", some ⟨"S", 0, []⟩, none⟩ ⟨"", some ⟨"S", 0, []⟩, none⟩ = true
  ∧ (⟨"S", some ⟨"S", 0, []⟩, none⟩ : ArrayMeta).kind
      ≠ (⟨"", some ⟨"S", 0, []⟩, none⟩ : ArrayMeta).kind
  ∧ instancecheck ⟨"S", some ⟨"S", 0, []⟩, none⟩ (Value.ndarray [3] ⟨"S", 5, []⟩) = true
  ∧ instancecheck ⟨"", some ⟨"S", 0, []⟩, none⟩ (Value.ndarray [3] ⟨"S", 5, []⟩) = false :=
  ⟨rfl, rfl, rfl, by decide, rfl, rfl⟩

/-- C5, amended: two parsed patterns are equal iff their shape attributes
and their dtype attributes are equal (the kind component is not compared);
in particular `parse(a) == parse(a)` for every valid raw argument, and the
nested-tuple form `Array[int, (1, 2, 3)]` parses equal to
`Array[int, 1, 2, 3]`. -/
theorem C5_structural_equality :
    (∀ a b : ArrayMeta, arrayEq a b = true ↔ a.shape = b.shape ∧ a.dtype = b.dtype)
  ∧ (∀ (raw : Raw) (m : ArrayMeta), arrayOf raw = Except.ok m → arrayEq m m = true)
  ∧ arrayOf (Raw.args [Item.base (BTok.typeTok PyType.pint),
        Item.tup [BTok.tint 1, BTok.tint 2, BTok.tint 3]])
      = arrayOf (Raw.args [Item.base (BTok.typeTok PyType.pint),
        Item.base (BTok.tint 1), Item.base (BTok.tint 2), Item.base (BTok.tint 3)]) := by
  refine ⟨?_, ?_, rfl⟩
  · intro a b
    simp [arrayEq]
  · intro raw m _
    simp [arrayEq]

/-- C5, witness: reflexivity at the parse of `Array[int, 1]`. -/
theorem C5_structural_equality_witness :
    arrayEq ⟨"", some ⟨"i", 8, []⟩, some [Dim.fixed 1]⟩
      ⟨"", some ⟨"i", 8, []⟩, some [Dim.fixed 1]⟩ = true :=
  C5_structural_equality.2.1
    (Raw.args [Item.base (BTok.typeTok PyType.pint), Item.base (BTok.tint 1)])
    ⟨"", some ⟨"i", 8, []⟩, some [Dim.fixed 1]⟩ rfl

/-- C6: the element-type check precedes the shape check and is decisive on
failure — a kind constraint failing, or (with no kind constraint) an exact
dtype constraint failing, forces the overall result to `false` whatever the
shape constraint and concrete shape are; and when the element check passes,
the result with a shape constraint present is exactly the shape check. -/
theorem C6_element_check_precedence :
    (∀ (cls : ArrayMeta) (s : List Nat) (d : Dtype),
       cls.kind ≠ "" → cls.kind ≠ d.kind →
       instancecheck cls (Value.ndarray s d) = false)
  ∧ (∀ (cls : ArrayMeta) (s : List Nat) (d e : Dtype),
       cls.kind = "" → cls.dtype = some e → e ≠ d →
       instancecheck cls (Value.ndarray s d) = false)
  ∧ (∀ (cls : ArrayMeta) (s : List Nat) (d : Dtype) (pat : List Dim),
       cls.shape = some pat →
       ((cls.kind ≠ "" ∧ cls.kind = d.kind) ∨
        (cls.kind = "" ∧ (cls.dtype = none ∨ cls.dtype = some d))) →
       instancecheck cls (Value.ndarray s d) = shapematch pat s) := by
  refine ⟨?_, ?_, ?_⟩
  · intro cls s d h1 h2
    simp only [instancecheck]
    rw [if_pos ⟨h1, h2⟩]
  · intro cls s d e h1 h2 h3
    simp only [instancecheck]
    rw [if_neg (fun hc => hc.1 h1)]
    rw [if_pos ⟨by rw [h2]; simp, by rw [h2]; simpa using h3, h1⟩]
  · intro cls s d pat hs hel
    have hc1 : ¬(cls.kind ≠ "" ∧ cls.kind ≠ d.kind) := by
      rcases hel with ⟨_, heq⟩ | ⟨hk, _⟩
      · exact fun hc => hc.2 heq
      · exact fun hc => hc.1 hk
    have hc2 : ¬(cls.dtype ≠ none ∧ cls.dtype ≠ some d ∧ cls.kind = "") := by
      rcases hel with ⟨hne, _⟩ | ⟨_, hd⟩
      · exact fun hc => hne hc.2.2
      · rcases hd with hd | hd
        · exact fun hc => hc.1 hd
        · exact fun hc => hc.2.1 hd
    simp only [instancecheck]
    rw [if_neg hc1, if_neg hc2, hs]
    rfl

/-- C6, witness: kind constraint `"i"` rejects a float array outright. -/
theorem C6_element_check_precedence_witness :
    instancecheck ⟨"i", none, none⟩ (Value.ndarray [2] ⟨"f", 8, []⟩) = false :=
  C6_element_check_precedence.1 ⟨"i", none, none⟩ [2] ⟨"f", 8, []⟩
    (by decide) (by decide)

/-- C7: a raw argument whose dimension tokens contain two or more scalar
markers — empty tuples, `Scalar` markers, or a mix — fails to parse. -/
theorem C7_multiple_scalar_markers_rejected :
    ∀ raw : Raw, 2 ≤ scalarMarkerCount raw → (parse_subscript raw).isOk = false := by
  intro raw h
  unfold scalarMarkerCount at h
  unfold parse_subscript
  split
  · rfl
  · split
    · rename_i heq
      rw [heq] at h
      simp [flattenDims] at h
    · rename_i t rest heq
      rw [heq] at h
      split
      · rename_i hres
        obtain ⟨hgap, hsc, b, hb⟩ := resolves_flat t hres
        subst hb
        rw [flattenDims_cons_base, List.filter_cons] at h
        rw [hsc] at h
        simp only [Bool.false_eq_true, if_false] at h
        exact parseDims_scalar_isOk _ _ _ h
      · split
        · rfl
        · exact parseDims_scalar_isOk _ _ _ h

/-- C7, witness: `Array[(), ()]` fails to parse. -/
theorem C7_multiple_scalar_markers_rejected_witness :
    (parse_subscript (Raw.args [Item.tup [], Item.tup []])).isOk = false :=
  C7_multiple_scalar_markers_rejected (Raw.args [Item.tup [], Item.tup []]) (by decide)

/-- C8: a gap-free pattern of length `k` fails against every concrete shape
of rank `≠ k`, whatever the element dtype. -/
theorem C8_rank_mismatch_fails :
    ∀ (cls : ArrayMeta) (pat : List Dim) (s : List Nat) (d : Dtype),
      cls.shape = some pat → Dim.gap ∉ pat → s.length ≠ pat.length →
      instancecheck cls (Value.ndarray s d) = false := by
  intro cls pat s d hs hg hl
  exact instancecheck_shape_false cls pat s d hs (shapematch_gapfree_length s hg hl)

/-- C8, witness: `Array[1]` rejects the rank-2 shape `(1, 2)`. -/
theorem C8_rank_mismatch_fails_witness :
    instancecheck ⟨"", none, some [Dim.fixed 1]⟩ (Value.ndarray [1, 2] ⟨"i", 8, []⟩)
      = false :=
  C8_rank_mismatch_fails ⟨"", none, some [Dim.fixed 1]⟩ [Dim.fixed 1] [1, 2]
    ⟨"i", 8, []⟩ rfl (by decide) (by decide)

/-- C9: for an array with a structured (record) dtype, a pattern with no
kind and no dtype constraint but with a shape constraint yields exactly the
shape-check result — the initial record-dtype rejection is overwritten by
the shape branch, so such an array can still pass `isinstance`. -/
theorem C9_record_dtype_shape_overrides :
    ∀ (cls : ArrayMeta) (pat : List Dim) (s : List Nat) (d : Dtype),
      cls.kind = "" → cls.dtype = none → cls.shape = some pat →
      instancecheck cls (Value.ndarray s d) = shapematch pat s := by
  intro cls pat s d hk hd hs
  simp only [instancecheck]
  rw [if_neg (fun hc => hc.1 hk), if_neg (fun hc => hc.1 hd), hs]
  rfl

/-- C9, witness: a record-dtype array of shape `(2,)` passes
`Array[2]`. -/
theorem C9_record_dtype_shape_overrides_witness :
    instancecheck ⟨"", none, some [Dim.fixed 2]⟩
      (Value.ndarray [2] ⟨"V", 16, ["a", "b"]⟩) = true :=
  (C9_record_dtype_shape_overrides ⟨"", none, some [Dim.fixed 2]⟩ [Dim.fixed 2] [2]
    ⟨"V", 16, ["a", "b"]⟩ rfl rfl rfl).trans (by decide)

/-- C10: a value that is not a numpy array is never an instance of any
`Array` pattern, whatever its kind, dtype and shape constraints. -/
theorem C10_non_ndarray_rejected :
    ∀ cls : ArrayMeta, instancecheck cls Value.other = false := by
  intro cls
  rfl

end Asta
